import Mathlib

/-!
Shallow embedding of the `nacos-rs` configuration client (`src/lib.rs`).

Strings and byte buffers from the Rust code are modelled as `List Nat`
(byte sequences); URLs are Lean `String`s.  The shared
`Mutex<HashMap<String, String>>` fingerprint cache is modelled as an
association list threaded through the functions.  Network interaction is
modelled by a "script": a list of server responses consumed one per
request; each call also returns the trace of requests it issued and the
log messages it emitted.
-/

/-- 2^32, the word modulus of the MD5 state. -/
def u32 : Nat := 4294967296

/-- The all-ones 32-bit word, used to model bitwise negation. -/
def mask32 : Nat := 4294967295

/-- 32-bit left rotation. -/
def rotl32 (x n : Nat) : Nat :=
  ((x <<< n) ||| (x >>> (32 - n))) % u32

/-- Little-endian byte decomposition: `n` bytes of `x`. -/
def toLEBytes : Nat → Nat → List Nat
  | 0, _ => []
  | n + 1, x => x % 256 :: toLEBytes n (x / 256)

/-- Little-endian byte recomposition. -/
def fromLEBytes : List Nat → Nat
  | [] => 0
  | b :: r => b + 256 * fromLEBytes r

/-- The 64 MD5 round constants (floor(2^32 * |sin(i+1)|)). -/
def md5K : List Nat :=
  [0xd76aa478, 0xe8c7b756, 0x242070db, 0xc1bdceee,
   0xf57c0faf, 0x4787c62a, 0xa8304613, 0xfd469501,
   0x698098d8, 0x8b44f7af, 0xffff5bb1, 0x895cd7be,
   0x6b901122, 0xfd987193, 0xa679438e, 0x49b40821,
   0xf61e2562, 0xc040b340, 0x265e5a51, 0xe9b6c7aa,
   0xd62f105d, 0x02441453, 0xd8a1e681, 0xe7d3fbc8,
   0x21e1cde6, 0xc33707d6, 0xf4d50d87, 0x455a14ed,
   0xa9e3e905, 0xfcefa3f8, 0x676f02d9, 0x8d2a4c8a,
   0xfffa3942, 0x8771f681, 0x6d9d6122, 0xfde5380c,
   0xa4beea44, 0x4bdecfa9, 0xf6bb4b60, 0xbebfbc70,
   0x289b7ec6, 0xeaa127fa, 0xd4ef3085, 0x04881d05,
   0xd9d4d039, 0xe6db99e5, 0x1fa27cf8, 0xc4ac5665,
   0xf4292244, 0x432aff97, 0xab9423a7, 0xfc93a039,
   0x655b59c3, 0x8f0ccc92, 0xffeff47d, 0x85845dd1,
   0x6fa87e4f, 0xfe2ce6e0, 0xa3014314, 0x4e0811a1,
   0xf7537e82, 0xbd3af235, 0x2ad7d2bb, 0xeb86d391]

/-- The 64 MD5 per-round left-rotation amounts. -/
def md5S : List Nat :=
  [7, 12, 17, 22, 7, 12, 17, 22, 7, 12, 17, 22, 7, 12, 17, 22,
   5, 9, 14, 20, 5, 9, 14, 20, 5, 9, 14, 20, 5, 9, 14, 20,
   4, 11, 16, 23, 4, 11, 16, 23, 4, 11, 16, 23, 4, 11, 16, 23,
   6, 10, 15, 21, 6, 10, 15, 21, 6, 10, 15, 21, 6, 10, 15, 21]

/-- One MD5 round operation on the state `(a, b, c, d)`, round index `i`,
with `M` the 16-word message schedule of the current chunk. -/
def md5Step (M : Nat → Nat) (st : Nat × Nat × Nat × Nat) (i : Nat) :
    Nat × Nat × Nat × Nat :=
  let a := st.1
  let b := st.2.1
  let c := st.2.2.1
  let d := st.2.2.2
  let fg : Nat × Nat :=
    if i < 16 then ((b &&& c) ||| ((mask32 ^^^ b) &&& d), i)
    else if i < 32 then ((d &&& b) ||| ((mask32 ^^^ d) &&& c), (5 * i + 1) % 16)
    else if i < 48 then (b ^^^ c ^^^ d, (3 * i + 5) % 16)
    else (c ^^^ (b ||| (mask32 ^^^ d)), (7 * i) % 16)
  let f := (fg.1 + a + md5K.getD i 0 + M fg.2) % u32
  (d, (b + rotl32 f (md5S.getD i 0)) % u32, b, c)

/-- Word `j` (little-endian 32-bit) of a 64-byte chunk. -/
def md5Word (chunk : List Nat) (j : Nat) : Nat :=
  fromLEBytes ((chunk.drop (4 * j)).take 4)

/-- Process one 64-byte chunk: 64 rounds, then add to the running state. -/
def md5Chunk (st : Nat × Nat × Nat × Nat) (chunk : List Nat) :
    Nat × Nat × Nat × Nat :=
  let r := (List.range 64).foldl (md5Step (md5Word chunk)) st
  ((st.1 + r.1) % u32, (st.2.1 + r.2.1) % u32,
   (st.2.2.1 + r.2.2.1) % u32, (st.2.2.2 + r.2.2.2) % u32)

/-- MD5 padding: append `0x80`, zero bytes up to 56 mod 64, then the
64-bit little-endian bit length. -/
def md5Pad (msg : List Nat) : List Nat :=
  msg ++ 0x80 :: List.replicate ((120 - ((msg.length + 1) % 64)) % 64) 0
      ++ toLEBytes 8 ((msg.length * 8) % (u32 * u32))

/-- Split a byte list into 64-byte chunks (fuel-indexed helper; the fuel
`l.length` always suffices because each step drops at least one byte). -/
def toChunksF : Nat → List Nat → List (List Nat)
  | 0, _ => []
  | _, [] => []
  | fuel + 1, b :: r => (b :: r).take 64 :: toChunksF fuel ((b :: r).drop 64)

/-- Split a byte list into 64-byte chunks. -/
def toChunks (l : List Nat) : List (List Nat) :=
  toChunksF l.length l

/-- The MD5 digest (16 bytes) of a byte sequence.  Models the `md5` crate
used by `update_md5`. -/
def md5 (msg : List Nat) : List Nat :=
  let st := (toChunks (md5Pad msg)).foldl md5Chunk
      (0x67452301, 0xefcdab89, 0x98badcfe, 0x10325476)
  toLEBytes 4 st.1 ++ toLEBytes 4 st.2.1 ++ toLEBytes 4 st.2.2.1
    ++ toLEBytes 4 st.2.2.2

/-- Lowercase hexadecimal digit for a value below 16 (ASCII code). -/
def hexDigit (n : Nat) : Nat := if n < 10 then 48 + n else 87 + n

/-- Lowercase hexadecimal encoding of a byte sequence, as ASCII codes.
Models the `hex::encode` call in `update_md5`. -/
def hexEncode : List Nat → List Nat
  | [] => []
  | b :: r => hexDigit (b / 16) :: hexDigit (b % 16) :: hexEncode r

/-- An ASCII code of a lowercase hexadecimal digit (`0`-`9` or `a`-`f`). -/
def isLowerHexByte (c : Nat) : Prop :=
  (48 ≤ c ∧ c ≤ 57) ∨ (97 ≤ c ∧ c ≤ 102)

instance (c : Nat) : Decidable (isLowerHexByte c) := by
  unfold isLowerHexByte
  infer_instance

/-! ## The Nacos client -/

/-- Association-list model of the `HashMap<String, String>` fingerprint
cache: data id (bytes) to md5 hex string (bytes).  `insert` prepends, so
`lookupConfig` sees the newest binding, matching `HashMap::insert`
overwrite semantics. -/
def lookupConfig : List (List Nat × List Nat) → List Nat → Option (List Nat)
  | [], _ => none
  | (k, v) :: rest, key => if k = key then some v else lookupConfig rest key

/-- `HashMap::contains_key`. -/
def contains_key (c : List (List Nat × List Nat)) (k : List Nat) : Bool :=
  (lookupConfig c k).isSome

/-- The `Nacos` struct of `src/lib.rs`: transport flag, server address,
optional namespace, group, and the fingerprint cache (`current_config`).
The reqwest `Client` has no observable state and is not modelled. -/
structure Nacos where
  use_https : Bool
  server_addr : String
  name_space : Option (List Nat)
  group : List Nat
  current_config : List (List Nat × List Nat)
deriving DecidableEq

/-- `Nacos::new`: the cache starts empty (`Default::default()`). -/
def Nacos.new (use_https : Bool) (server_addr : String)
    (name_space : Option (List Nat)) (group : List Nat) : Nacos :=
  ⟨use_https, server_addr, name_space, group, []⟩

/-- `Nacos::make_url`. -/
def Nacos.make_url (n : Nacos) (path : String) : String :=
  (if n.use_https then "https" else "http") ++ "://" ++ n.server_addr ++ path

/-- The query-parameter list built by `Nacos::get_config`: `tenant` first
when a namespace is configured, then `group` and `dataId`. -/
def fetch_query (n : Nacos) (data_id : List Nat) :
    List (String × List Nat) :=
  (match n.name_space with
   | some ns => [("tenant", ns)]
   | none => []) ++ [("group", n.group), ("dataId", data_id)]

/-- A request issued to the server: either the GET of `get_config` or the
long-poll POST of the watch loop (with its `Long-Pulling-Timeout` header
value and `Listening-Configs` value). -/
inductive Request where
  | fetch (url : String) (query : List (String × List Nat))
  | watch (url : String) (longPullingTimeout : String)
      (listeningConfigs : List Nat)
deriving DecidableEq

/-- The `Listening-Configs` value built in `wait_for_new_config`:
`dataId 0x02 group 0x02 md5 [0x02 namespace] 0x01`. -/
def listening_configs (n : Nacos) (data_id md5v : List Nat) : List Nat :=
  data_id ++ [2] ++ n.group ++ [2] ++ md5v ++
    (match n.name_space with
     | some ns => [2] ++ ns
     | none => []) ++ [1]

/-- The fetch request built by `Nacos::get_config`. -/
def get_config_request (n : Nacos) (data_id : List Nat) : Request :=
  Request.fetch (n.make_url "/nacos/v1/cs/configs") (fetch_query n data_id)

/-- The watch request built by one iteration of the loop in
`wait_for_new_config`. -/
def watch_request (n : Nacos) (lc : List Nat) : Request :=
  Request.watch (n.make_url "/nacos/v1/cs/configs/listener") "30000" lc

/-- `Nacos::update_md5`: hash the content, hex-encode, insert under the
data id. -/
def update_md5 (n : Nacos) (data_id config : List Nat) : Nacos :=
  { n with current_config := (data_id, hexEncode (md5 config)) :: n.current_config }

/-- One server response to one request: `failure` covers both a transport
error from `send()` and a non-2xx status rejected by `error_for_status()`;
`success body` is a 2xx response with the given body bytes. -/
inductive Response where
  | failure
  | success (body : List Nat)
deriving DecidableEq

/-- Log messages emitted by the client (only the `log::debug!` call on an
empty watch response exists in the source). -/
inductive LogEvent where
  | debugNoNewConfig (data_id : List Nat)
deriving DecidableEq

/-- The outcome of a call to `wait_for_new_config`: how it returned
(`pending` means the response script ran out while the call was still
blocked), the client state after the call, the requests issued, and the
log messages emitted, in order. -/
inductive WaitResult where
  | ok (body : List Nat)
  | err
  | pending
deriving DecidableEq

structure WaitOutput where
  result : WaitResult
  state : Nacos
  requests : List Request
  logs : List LogEvent

/-- The watch request built at the top of one loop iteration: the md5 is
read from the cache (`.get(data_id).unwrap()`; the tracked branch
guarantees presence, modelled by `getD []`). -/
def watch_request_now (n : Nacos) (data_id : List Nat) : Request :=
  watch_request n
    (listening_configs n data_id
      ((lookupConfig n.current_config data_id).getD []))

/-- The `loop` in the tracked branch of `wait_for_new_config`: read the
cached md5, build and send the watch request; a failure response aborts
with the error; an empty 2xx body logs and loops; a non-empty body updates
the cache and returns. -/
def watch_loop (n : Nacos) (data_id : List Nat) :
    List Response → WaitOutput
  | [] => ⟨WaitResult.pending, n, [watch_request_now n data_id], []⟩
  | Response.failure :: _ =>
      ⟨WaitResult.err, n, [watch_request_now n data_id], []⟩
  | Response.success body :: rest =>
      if body = [] then
        let o := watch_loop n data_id rest
        ⟨o.result, o.state, watch_request_now n data_id :: o.requests,
          LogEvent.debugNoNewConfig data_id :: o.logs⟩
      else
        ⟨WaitResult.ok body, update_md5 n data_id body,
          [watch_request_now n data_id], []⟩

/-- `Nacos::wait_for_new_config`, driven by a response script. -/
def wait_for_new_config (n : Nacos) (data_id : List Nat)
    (script : List Response) : WaitOutput :=
  if contains_key n.current_config data_id = false then
    let req := get_config_request n data_id
    match script with
    | [] => ⟨WaitResult.pending, n, [req], []⟩
    | Response.failure :: _ => ⟨WaitResult.err, n, [req], []⟩
    | Response.success body :: _ =>
      ⟨WaitResult.ok body, update_md5 n data_id body, [req], []⟩
  else
    watch_loop n data_id script

/-- A client with an empty cache, used for concrete instantiations. -/
def sampleUnseen : Nacos :=
  Nacos.new false "127.0.0.1:8848" none [103, 114, 112]

/-- A client already tracking data id `[100]` with fingerprint `[97, 98]`. -/
def sampleTracked : Nacos :=
  ⟨false, "127.0.0.1:8848", none, [103, 114, 112], [([100], [97, 98])]⟩

/-- A client with a namespace configured, tracking data id `[100]`. -/
def sampleTrackedNs : Nacos :=
  ⟨true, "10.0.0.1:80", some [110, 115], [103], [([100], [97])]⟩

/-! ## Basic lemmas about the digest and the cache -/

theorem toLEBytes_length (n x : Nat) : (toLEBytes n x).length = n := by
  induction n generalizing x with
  | zero => rfl
  | succ k ih => simp [toLEBytes, ih]

theorem toLEBytes_lt (n x : Nat) : ∀ b ∈ toLEBytes n x, b < 256 := by
  induction n generalizing x with
  | zero => simp [toLEBytes]
  | succ k ih =>
    intro b hb
    simp only [toLEBytes, List.mem_cons] at hb
    rcases hb with h | h
    · omega
    · exact ih _ _ h

theorem md5_length (msg : List Nat) : (md5 msg).length = 16 := by
  simp [md5, toLEBytes_length]

theorem md5_bytes_lt (msg : List Nat) : ∀ b ∈ md5 msg, b < 256 := by
  intro b hb
  simp only [md5, List.mem_append] at hb
  rcases hb with ((h | h) | h) | h <;> exact toLEBytes_lt _ _ _ h

theorem hexDigit_lower {n : Nat} (h : n < 16) : isLowerHexByte (hexDigit n) := by
  unfold hexDigit isLowerHexByte
  split <;> omega

theorem hexEncode_lower (l : List Nat) (hl : ∀ b ∈ l, b < 256) :
    ∀ c ∈ hexEncode l, isLowerHexByte c := by
  induction l with
  | nil => simp [hexEncode]
  | cons b r ih =>
    intro c hc
    simp only [hexEncode, List.mem_cons] at hc
    rcases hc with h | h | h
    · subst h
      exact hexDigit_lower (by have := hl b (by simp); omega)
    · subst h
      exact hexDigit_lower (Nat.mod_lt _ (by omega))
    · exact ih (fun x hx => hl x (by simp [hx])) c h

theorem lookupConfig_cons_self (k v : List Nat)
    (c : List (List Nat × List Nat)) :
    lookupConfig ((k, v) :: c) k = some v := by
  simp [lookupConfig]

theorem lookupConfig_cons_other {k k' : List Nat} (v : List Nat)
    (c : List (List Nat × List Nat)) (h : k ≠ k') :
    lookupConfig ((k, v) :: c) k' = lookupConfig c k' := by
  simp [lookupConfig, h]

/-! ## Invariants of the watch loop -/

theorem watch_loop_ok_state (n : Nacos) (d : List Nat) (s : List Response)
    (body : List Nat) (h : (watch_loop n d s).result = WaitResult.ok body) :
    (watch_loop n d s).state = update_md5 n d body := by
  induction s with
  | nil => simp [watch_loop] at h
  | cons r rest ih =>
    cases r with
    | failure => simp [watch_loop] at h
    | success b =>
      by_cases hb : b = []
      · simp only [watch_loop, hb, if_pos rfl] at h ⊢
        exact ih h
      · simp only [watch_loop, if_neg hb] at h ⊢
        cases h
        rfl

theorem watch_loop_err_state (n : Nacos) (d : List Nat) (s : List Response)
    (h : (watch_loop n d s).result = WaitResult.err) :
    (watch_loop n d s).state = n := by
  induction s with
  | nil => simp [watch_loop] at h
  | cons r rest ih =>
    cases r with
    | failure => simp [watch_loop]
    | success b =>
      by_cases hb : b = []
      · simp only [watch_loop, hb, if_pos rfl] at h ⊢
        exact ih h
      · simp only [watch_loop, if_neg hb] at h
        cases h

theorem watch_loop_requests_ne_nil (n : Nacos) (d : List Nat)
    (s : List Response) : (watch_loop n d s).requests ≠ [] := by
  cases s with
  | nil => simp [watch_loop]
  | cons r rest =>
    cases r with
    | failure => simp [watch_loop]
    | success b =>
      by_cases hb : b = [] <;> simp [watch_loop, hb]

theorem watch_loop_requests_head (n : Nacos) (d : List Nat)
    (s : List Response) :
    (watch_loop n d s).requests.head? = some (watch_request_now n d) := by
  cases s with
  | nil => simp [watch_loop]
  | cons r rest =>
    cases r with
    | failure => simp [watch_loop]
    | success b =>
      by_cases hb : b = [] <;> simp [watch_loop, hb]

theorem watch_loop_requests_all (n : Nacos) (d : List Nat)
    (s : List Response) :
    ∀ r ∈ (watch_loop n d s).requests, r = watch_request_now n d := by
  induction s with
  | nil => simp [watch_loop]
  | cons r rest ih =>
    cases r with
    | failure => simp [watch_loop]
    | success b =>
      by_cases hb : b = []
      · intro r hr
        simp [watch_loop, hb] at hr
        rcases hr with h | h
        · exact h
        · exact ih r h
      · simp [watch_loop, hb]

theorem watch_loop_state_cases (n : Nacos) (d : List Nat)
    (s : List Response) :
    (watch_loop n d s).state = n
    ∨ ∃ body, (watch_loop n d s).state = update_md5 n d body := by
  induction s with
  | nil => left; simp [watch_loop]
  | cons r rest ih =>
    cases r with
    | failure => left; simp [watch_loop]
    | success b =>
      by_cases hb : b = []
      · simp only [watch_loop, hb, if_pos rfl]
        exact ih
      · right
        exact ⟨b, by simp [watch_loop, hb]⟩

/-- With a cached fingerprint present, `wait_for_new_config` runs the
watch loop. -/
theorem wait_tracked (n : Nacos) (d fp : List Nat) (s : List Response)
    (h : lookupConfig n.current_config d = some fp) :
    wait_for_new_config n d s = watch_loop n d s := by
  simp [wait_for_new_config, contains_key, h]

/-- With a cached fingerprint present, the request at the top of each
iteration carries exactly that fingerprint. -/
theorem watch_request_now_eq (n : Nacos) (d fp : List Nat)
    (h : lookupConfig n.current_config d = some fp) :
    watch_request_now n d
      = watch_request n (listening_configs n d fp) := by
  simp [watch_request_now, h]

theorem wait_ok_state (n : Nacos) (d : List Nat) (s : List Response)
    (body : List Nat)
    (h : (wait_for_new_config n d s).result = WaitResult.ok body) :
    (wait_for_new_config n d s).state = update_md5 n d body := by
  by_cases hc : contains_key n.current_config d = false
  · simp only [wait_for_new_config, if_pos hc] at h ⊢
    cases s with
    | nil => simp at h
    | cons r rest =>
      cases r with
      | failure => simp at h
      | success b =>
        simp only at h
        have hb : b = body := by
          simpa using congrArg id h
        subst hb
        rfl
  · simp only [wait_for_new_config, if_neg hc] at h ⊢
    exact watch_loop_ok_state n d s body h

theorem wait_err_state (n : Nacos) (d : List Nat) (s : List Response)
    (h : (wait_for_new_config n d s).result = WaitResult.err) :
    (wait_for_new_config n d s).state = n := by
  by_cases hc : contains_key n.current_config d = false
  · simp only [wait_for_new_config, if_pos hc] at h ⊢
    cases s with
    | nil => simp at h
    | cons r rest =>
      cases r with
      | failure => rfl
      | success b => simp at h
  · simp only [wait_for_new_config, if_neg hc] at h ⊢
    exact watch_loop_err_state n d s h

theorem wait_state_cases (n : Nacos) (d : List Nat) (s : List Response) :
    (wait_for_new_config n d s).state = n
    ∨ ∃ body, (wait_for_new_config n d s).state = update_md5 n d body := by
  by_cases hc : contains_key n.current_config d = false
  · simp only [wait_for_new_config, if_pos hc]
    cases s with
    | nil => left; rfl
    | cons r rest =>
      cases r with
      | failure => left; rfl
      | success b => right; exact ⟨b, rfl⟩
  · simp only [wait_for_new_config, if_neg hc]
    exact watch_loop_state_cases n d s

/-! ## Claims -/

/-- C1: for a data id with no cached fingerprint, `wait_for_new_config`
issues exactly one request, which is the fetch request of `get_config`
(never a watch request), stores the fingerprint of the fetched bytes in
the cache under that id, and returns the fetched body unchanged, without
entering the long-poll loop. -/
theorem C1_unseen_single_fetch (n : Nacos) (data_id body : List Nat)
    (rest : List Response)
    (h : lookupConfig n.current_config data_id = none) :
    (wait_for_new_config n data_id (Response.success body :: rest)).result
        = WaitResult.ok body
    ∧ (wait_for_new_config n data_id (Response.success body :: rest)).requests
        = [get_config_request n data_id]
    ∧ (∀ u t lc, Request.watch u t lc
        ∉ (wait_for_new_config n data_id (Response.success body :: rest)).requests)
    ∧ lookupConfig
        (wait_for_new_config n data_id
          (Response.success body :: rest)).state.current_config data_id
        = some (hexEncode (md5 body)) := by
  have hc : contains_key n.current_config data_id = false := by
    simp [contains_key, h]
  refine ⟨?_, ?_, ?_, ?_⟩ <;>
    simp [wait_for_new_config, hc, update_md5, lookupConfig, get_config_request]

/-- Witness for C1: a concrete unseen id, one successful fetch. -/
theorem C1_unseen_single_fetch_witness :
    lookupConfig sampleUnseen.current_config [97] = none
    ∧ ((wait_for_new_config sampleUnseen [97]
          [Response.success [104, 105]]).result = WaitResult.ok [104, 105]
      ∧ (wait_for_new_config sampleUnseen [97]
          [Response.success [104, 105]]).requests
          = [get_config_request sampleUnseen [97]]
      ∧ (∀ u t lc, Request.watch u t lc
          ∉ (wait_for_new_config sampleUnseen [97]
              [Response.success [104, 105]]).requests)
      ∧ lookupConfig
          (wait_for_new_config sampleUnseen [97]
            [Response.success [104, 105]]).state.current_config [97]
          = some (hexEncode (md5 [104, 105]))) :=
  ⟨by rfl, C1_unseen_single_fetch sampleUnseen [97] [104, 105] [] (by rfl)⟩

/-- C2: the `Listening-Configs` value is
`dataId 0x02 group 0x02 md5 [0x02 namespace] 0x01`; with no bytes 0x01 or
0x02 in the fields it has a trailing SOH, exactly two STX separators and
one SOH when namespace is absent, and exactly three STX separators and
one SOH when namespace is present. -/
theorem C2_listening_configs_framing (n : Nacos) (data_id md5v : List Nat)
    (h2d : (2 : Nat) ∉ data_id) (h1d : (1 : Nat) ∉ data_id)
    (h2g : (2 : Nat) ∉ n.group) (h1g : (1 : Nat) ∉ n.group)
    (h2m : (2 : Nat) ∉ md5v) (h1m : (1 : Nat) ∉ md5v)
    (hns : ∀ ns, n.name_space = some ns → (2 : Nat) ∉ ns ∧ (1 : Nat) ∉ ns) :
    listening_configs n data_id md5v
      = data_id ++ [2] ++ n.group ++ [2] ++ md5v ++
        (match n.name_space with
         | some ns => [2] ++ ns
         | none => []) ++ [1]
    ∧ (listening_configs n data_id md5v).getLast? = some 1
    ∧ (n.name_space = none →
        (listening_configs n data_id md5v).count 2 = 2
        ∧ (listening_configs n data_id md5v).count 1 = 1)
    ∧ (∀ ns, n.name_space = some ns →
        (listening_configs n data_id md5v).count 2 = 3
        ∧ (listening_configs n data_id md5v).count 1 = 1) := by
  refine ⟨rfl, ?_, ?_, ?_⟩
  · rw [show listening_configs n data_id md5v
        = (data_id ++ [2] ++ n.group ++ [2] ++ md5v ++
            (match n.name_space with
             | some ns => [2] ++ ns
             | none => [])) ++ [1] from rfl,
      List.getLast?_append_cons]
    rfl
  · intro hn
    simp [listening_configs, hn, List.count_append,
      List.count_eq_zero.mpr h2d, List.count_eq_zero.mpr h1d,
      List.count_eq_zero.mpr h2g, List.count_eq_zero.mpr h1g,
      List.count_eq_zero.mpr h2m, List.count_eq_zero.mpr h1m]
  · intro ns hn
    obtain ⟨h2n, h1n⟩ := hns ns hn
    simp [listening_configs, hn, List.count_append,
      List.count_eq_zero.mpr h2d, List.count_eq_zero.mpr h1d,
      List.count_eq_zero.mpr h2g, List.count_eq_zero.mpr h1g,
      List.count_eq_zero.mpr h2m, List.count_eq_zero.mpr h1m,
      List.count_eq_zero.mpr h2n, List.count_eq_zero.mpr h1n]

/-- Witness for C2 at concrete fields, covering the namespace-present
client. -/
theorem C2_listening_configs_framing_witness :
    ((2 : Nat) ∉ [100] ∧ (1 : Nat) ∉ [100] ∧ (2 : Nat) ∉ sampleTrackedNs.group
      ∧ (1 : Nat) ∉ sampleTrackedNs.group ∧ (2 : Nat) ∉ [97]
      ∧ (1 : Nat) ∉ [97]
      ∧ (∀ ns, sampleTrackedNs.name_space = some ns →
          (2 : Nat) ∉ ns ∧ (1 : Nat) ∉ ns))
    ∧ (listening_configs sampleTrackedNs [100] [97]
        = [100] ++ [2] ++ sampleTrackedNs.group ++ [2] ++ [97] ++
          (match sampleTrackedNs.name_space with
           | some ns => [2] ++ ns
           | none => []) ++ [1]
      ∧ (listening_configs sampleTrackedNs [100] [97]).getLast? = some 1
      ∧ (sampleTrackedNs.name_space = none →
          (listening_configs sampleTrackedNs [100] [97]).count 2 = 2
          ∧ (listening_configs sampleTrackedNs [100] [97]).count 1 = 1)
      ∧ (∀ ns, sampleTrackedNs.name_space = some ns →
          (listening_configs sampleTrackedNs [100] [97]).count 2 = 3
          ∧ (listening_configs sampleTrackedNs [100] [97]).count 1 = 1)) :=
  ⟨⟨by decide, by decide, by decide, by decide, by decide, by decide,
    by intro ns hn; cases hn; exact ⟨by decide, by decide⟩⟩,
   C2_listening_configs_framing sampleTrackedNs [100] [97]
    (by decide) (by decide) (by decide) (by decide) (by decide) (by decide)
    (by intro ns hn; cases hn; exact ⟨by decide, by decide⟩)⟩

/-- C3: after every successful return (fetch or watch path), the cache
entry for the data id is the lowercase hexadecimal encoding of the
16-byte (128-bit) MD5 digest of exactly the returned bytes. -/
theorem C3_success_cache_fingerprint (n : Nacos) (data_id : List Nat)
    (script : List Response) (body : List Nat)
    (h : (wait_for_new_config n data_id script).result = WaitResult.ok body) :
    lookupConfig
        (wait_for_new_config n data_id script).state.current_config data_id
      = some (hexEncode (md5 body))
    ∧ (md5 body).length = 16
    ∧ (∀ c ∈ hexEncode (md5 body), isLowerHexByte c) := by
  refine ⟨?_, md5_length body, hexEncode_lower _ (md5_bytes_lt body)⟩
  rw [wait_ok_state n data_id script body h]
  simp [update_md5, lookupConfig]

/-- Witness for C3: a tracked id, one empty then one non-empty watch
response. -/
theorem C3_success_cache_fingerprint_witness :
    (wait_for_new_config sampleTracked [100]
        [Response.success [], Response.success [9]]).result
      = WaitResult.ok [9]
    ∧ (lookupConfig
        (wait_for_new_config sampleTracked [100]
          [Response.success [], Response.success [9]]).state.current_config
        [100]
      = some (hexEncode (md5 [9]))
    ∧ (md5 [9]).length = 16
    ∧ (∀ c ∈ hexEncode (md5 [9]), isLowerHexByte c)) :=
  ⟨by rfl, C3_success_cache_fingerprint sampleTracked [100]
    [Response.success [], Response.success [9]] [9] (by rfl)⟩

/-- C4: an error return (failure response on either path) is surfaced to
the caller with no internal retry — a failure response is answered by
exactly one issued request and an immediate error — and the client state,
hence the fingerprint cache, is exactly what it was before the call. -/
theorem C4_error_leaves_cache (n : Nacos) (data_id : List Nat)
    (script : List Response) :
    ((wait_for_new_config n data_id script).result = WaitResult.err →
      (wait_for_new_config n data_id script).state = n)
    ∧ (∀ rest, script = Response.failure :: rest →
        (wait_for_new_config n data_id script).result = WaitResult.err
        ∧ (wait_for_new_config n data_id script).requests.length = 1
        ∧ (wait_for_new_config n data_id script).state = n) := by
  constructor
  · exact wait_err_state n data_id script
  · intro rest hs
    subst hs
    by_cases hc : contains_key n.current_config data_id = false
    · rw [wait_for_new_config, if_pos hc]
      exact ⟨rfl, rfl, rfl⟩
    · rw [wait_for_new_config, if_neg hc]
      exact ⟨rfl, rfl, rfl⟩

/-- Witness for C4: a tracked id whose watch request fails. -/
theorem C4_error_leaves_cache_witness :
    ((wait_for_new_config sampleTracked [100] [Response.failure]).result
        = WaitResult.err
      ∧ (wait_for_new_config sampleTracked [100]
          [Response.failure]).requests.length = 1
      ∧ (wait_for_new_config sampleTracked [100] [Response.failure]).state
          = sampleTracked)
    ∧ (wait_for_new_config sampleTracked [100] [Response.failure]).state
        = sampleTracked :=
  have h := C4_error_leaves_cache sampleTracked [100] [Response.failure]
  ⟨h.2 [] rfl, h.1 (h.2 [] rfl).1⟩

/-- C5: an empty watch response does not return to the caller: the call
behaves exactly as the call on the remaining responses, another watch
request is issued with the unchanged cached fingerprint, and at least two
watch requests are sent in total. -/
theorem C5_empty_response_loops (n : Nacos) (data_id fp : List Nat)
    (rest : List Response)
    (h : lookupConfig n.current_config data_id = some fp) :
    (wait_for_new_config n data_id (Response.success [] :: rest)).result
        = (wait_for_new_config n data_id rest).result
    ∧ (wait_for_new_config n data_id (Response.success [] :: rest)).state
        = (wait_for_new_config n data_id rest).state
    ∧ (wait_for_new_config n data_id (Response.success [] :: rest)).requests
        = watch_request n (listening_configs n data_id fp)
            :: (wait_for_new_config n data_id rest).requests
    ∧ 2 ≤ (wait_for_new_config n data_id
        (Response.success [] :: rest)).requests.length
    ∧ (wait_for_new_config n data_id rest).requests.head?
        = some (watch_request n (listening_configs n data_id fp)) := by
  have hreq := watch_request_now_eq n data_id fp h
  rw [wait_tracked n data_id fp (Response.success [] :: rest) h,
    wait_tracked n data_id fp rest h]
  have hunf : watch_loop n data_id (Response.success [] :: rest)
      = ⟨(watch_loop n data_id rest).result,
         (watch_loop n data_id rest).state,
         watch_request_now n data_id :: (watch_loop n data_id rest).requests,
         LogEvent.debugNoNewConfig data_id
           :: (watch_loop n data_id rest).logs⟩ := by
    simp [watch_loop]
  rw [hunf, hreq]
  refine ⟨rfl, rfl, rfl, ?_, ?_⟩
  · have hne := watch_loop_requests_ne_nil n data_id rest
    have : 0 < (watch_loop n data_id rest).requests.length :=
      List.length_pos.mpr hne
    simp only [List.length_cons]
    omega
  · rw [watch_loop_requests_head n data_id rest, hreq]

/-- Witness for C5: a tracked id, one empty response, script exhausted. -/
theorem C5_empty_response_loops_witness :
    lookupConfig sampleTracked.current_config [100] = some [97, 98]
    ∧ ((wait_for_new_config sampleTracked [100]
          [Response.success []]).result
        = (wait_for_new_config sampleTracked [100] []).result
      ∧ (wait_for_new_config sampleTracked [100]
          [Response.success []]).state
        = (wait_for_new_config sampleTracked [100] []).state
      ∧ (wait_for_new_config sampleTracked [100]
          [Response.success []]).requests
        = watch_request sampleTracked
            (listening_configs sampleTracked [100] [97, 98])
            :: (wait_for_new_config sampleTracked [100] []).requests
      ∧ 2 ≤ (wait_for_new_config sampleTracked [100]
          [Response.success []]).requests.length
      ∧ (wait_for_new_config sampleTracked [100] []).requests.head?
        = some (watch_request sampleTracked
            (listening_configs sampleTracked [100] [97, 98]))) :=
  ⟨by rfl, C5_empty_response_loops sampleTracked [100] [97, 98] [] (by rfl)⟩

/-- C6: for a tracked id, every request the call issues is the watch
request carrying the fingerprint previously stored in the cache (never one
recomputed from content), and that fingerprint occurs verbatim inside the
`Listening-Configs` value. -/
theorem C6_watch_uses_cached_fingerprint (n : Nacos) (data_id fp : List Nat)
    (script : List Response)
    (h : lookupConfig n.current_config data_id = some fp) :
    (∀ r ∈ (wait_for_new_config n data_id script).requests,
      r = watch_request n (listening_configs n data_id fp))
    ∧ (∃ l r', listening_configs n data_id fp = l ++ fp ++ r') := by
  constructor
  · rw [wait_tracked n data_id fp script h]
    intro r hr
    rw [← watch_request_now_eq n data_id fp h]
    exact watch_loop_requests_all n data_id script r hr
  · refine ⟨data_id ++ [2] ++ n.group ++ [2],
      (match n.name_space with
       | some ns => [2] ++ ns
       | none => []) ++ [1], ?_⟩
    simp [listening_configs, List.append_assoc]

/-- Witness for C6: the tracked sample client, one pending request. -/
theorem C6_watch_uses_cached_fingerprint_witness :
    lookupConfig sampleTracked.current_config [100] = some [97, 98]
    ∧ ((∀ r ∈ (wait_for_new_config sampleTracked [100] []).requests,
        r = watch_request sampleTracked
          (listening_configs sampleTracked [100] [97, 98]))
      ∧ (∃ l r', listening_configs sampleTracked [100] [97, 98]
          = l ++ [97, 98] ++ r')) :=
  ⟨by rfl,
   C6_watch_uses_cached_fingerprint sampleTracked [100] [97, 98] [] (by rfl)⟩

/-- C7: the fetch query omits the `tenant` parameter entirely when no
namespace is configured (it is not sent with an empty value), always
carries `group` and `dataId`, and carries `tenant = namespace` when a
namespace is configured. -/
theorem C7_fetch_query_params (n : Nacos) (data_id : List Nat) :
    get_config_request n data_id
      = Request.fetch (n.make_url "/nacos/v1/cs/configs")
          (fetch_query n data_id)
    ∧ (n.name_space = none →
        fetch_query n data_id = [("group", n.group), ("dataId", data_id)]
        ∧ ∀ p ∈ fetch_query n data_id, p.1 ≠ "tenant")
    ∧ (∀ ns, n.name_space = some ns →
        fetch_query n data_id
          = [("tenant", ns), ("group", n.group), ("dataId", data_id)])
    ∧ ("group", n.group) ∈ fetch_query n data_id
    ∧ ("dataId", data_id) ∈ fetch_query n data_id := by
  refine ⟨rfl, ?_, ?_, ?_, ?_⟩
  · intro hn
    refine ⟨by simp [fetch_query, hn], ?_⟩
    intro p hp
    simp only [fetch_query, hn, List.nil_append, List.mem_cons,
      List.not_mem_nil, or_false] at hp
    rcases hp with h | h
    · subst h
      show ("group" : String) ≠ "tenant"
      decide
    · subst h
      show ("dataId" : String) ≠ "tenant"
      decide
  · intro ns hn
    simp [fetch_query, hn]
  · cases hn : n.name_space <;> simp [fetch_query, hn]
  · cases hn : n.name_space <;> simp [fetch_query, hn]

/-- Witness for C7: the namespace-present and namespace-absent samples. -/
theorem C7_fetch_query_params_witness :
    (sampleTrackedNs.name_space = some [110, 115]
      ∧ fetch_query sampleTrackedNs [100]
        = [("tenant", [110, 115]), ("group", sampleTrackedNs.group),
           ("dataId", [100])])
    ∧ (sampleUnseen.name_space = none
      ∧ fetch_query sampleUnseen [100]
        = [("group", sampleUnseen.group), ("dataId", [100])]) :=
  ⟨⟨rfl, (C7_fetch_query_params sampleTrackedNs [100]).2.2.1 [110, 115] rfl⟩,
   ⟨rfl, ((C7_fetch_query_params sampleUnseen [100]).2.1 rfl).1⟩⟩

/-- C8 as stated is false on the code: an empty watch response IS logged —
the loop emits a debug-level "no new config" message for it. -/
theorem C8_empty_logged_counterexample :
    (wait_for_new_config sampleTracked [100]
        [Response.success [], Response.success [9]]).logs
      = [LogEvent.debugNoNewConfig [100]] := by rfl

/-- C8 (amended): an empty watch response is never treated as an error —
the call behaves exactly as on the remaining responses, and with no
further responses it is still blocked rather than in error — but it does
emit one debug-level log message. -/
theorem C8_empty_not_error (n : Nacos) (data_id fp : List Nat)
    (rest : List Response)
    (h : lookupConfig n.current_config data_id = some fp) :
    (wait_for_new_config n data_id (Response.success [] :: rest)).result
        = (wait_for_new_config n data_id rest).result
    ∧ (wait_for_new_config n data_id [Response.success []]).result
        = WaitResult.pending
    ∧ (wait_for_new_config n data_id (Response.success [] :: rest)).logs
        = LogEvent.debugNoNewConfig data_id
            :: (wait_for_new_config n data_id rest).logs := by
  rw [wait_tracked n data_id fp (Response.success [] :: rest) h,
    wait_tracked n data_id fp rest h,
    wait_tracked n data_id fp [Response.success []] h]
  refine ⟨?_, ?_, ?_⟩ <;> simp [watch_loop]

/-- Witness for C8 (amended) at the tracked sample client. -/
theorem C8_empty_not_error_witness :
    lookupConfig sampleTracked.current_config [100] = some [97, 98]
    ∧ ((wait_for_new_config sampleTracked [100]
          [Response.success [], Response.failure]).result
        = (wait_for_new_config sampleTracked [100] [Response.failure]).result
      ∧ (wait_for_new_config sampleTracked [100]
          [Response.success []]).result = WaitResult.pending
      ∧ (wait_for_new_config sampleTracked [100]
          [Response.success [], Response.failure]).logs
        = LogEvent.debugNoNewConfig [100]
            :: (wait_for_new_config sampleTracked [100]
                [Response.failure]).logs) :=
  ⟨by rfl, C8_empty_not_error sampleTracked [100] [97, 98]
    [Response.failure] (by rfl)⟩

/-- C9: a call for one data id leaves every other cache entry unchanged,
and never mutates the configuration fields (scheme, server address,
namespace, group). -/
theorem C9_frame_other_entries (n : Nacos) (data_id : List Nat)
    (script : List Response) (k : List Nat) (hk : k ≠ data_id) :
    lookupConfig
        (wait_for_new_config n data_id script).state.current_config k
      = lookupConfig n.current_config k
    ∧ (wait_for_new_config n data_id script).state.use_https = n.use_https
    ∧ (wait_for_new_config n data_id script).state.server_addr
        = n.server_addr
    ∧ (wait_for_new_config n data_id script).state.name_space = n.name_space
    ∧ (wait_for_new_config n data_id script).state.group = n.group := by
  rcases wait_state_cases n data_id script with hs | ⟨body, hs⟩
  · rw [hs]
    exact ⟨rfl, rfl, rfl, rfl, rfl⟩
  · rw [hs]
    refine ⟨?_, rfl, rfl, rfl, rfl⟩
    exact lookupConfig_cons_other _ _ (Ne.symm hk)

/-- Witness for C9: the tracked sample client, a successful watch, and a
different key. -/
theorem C9_frame_other_entries_witness :
    ([101] : List Nat) ≠ [100]
    ∧ (lookupConfig
        (wait_for_new_config sampleTracked [100]
          [Response.success [9]]).state.current_config [101]
      = lookupConfig sampleTracked.current_config [101]
    ∧ (wait_for_new_config sampleTracked [100]
        [Response.success [9]]).state.use_https = sampleTracked.use_https
    ∧ (wait_for_new_config sampleTracked [100]
        [Response.success [9]]).state.server_addr = sampleTracked.server_addr
    ∧ (wait_for_new_config sampleTracked [100]
        [Response.success [9]]).state.name_space = sampleTracked.name_space
    ∧ (wait_for_new_config sampleTracked [100]
        [Response.success [9]]).state.group = sampleTracked.group) :=
  ⟨by decide,
   C9_frame_other_entries sampleTracked [100] [Response.success [9]] [101]
    (by decide)⟩

/-- C10: no data id is ever rejected — every call issues at least one
request for any data id (including the empty one and ones holding the
reserved bytes 0x01/0x02) — the data id is embedded verbatim in the fetch
query and as the leading bytes of the `Listening-Configs` value, and each
0x02 byte inside the data id adds one further STX separator to the value's
framing. -/
theorem C10_no_data_id_validation (n : Nacos) (data_id : List Nat) :
    (∀ script, (wait_for_new_config n data_id script).requests ≠ [])
    ∧ ("dataId", data_id) ∈ fetch_query n data_id
    ∧ (∀ md5v, ∃ r', listening_configs n data_id md5v = data_id ++ r')
    ∧ (∀ md5v, n.name_space = none → (2 : Nat) ∉ n.group →
        (2 : Nat) ∉ md5v →
        (listening_configs n data_id md5v).count 2
          = 2 + data_id.count 2) := by
  refine ⟨?_, ?_, ?_, ?_⟩
  · intro script
    by_cases hc : contains_key n.current_config data_id = false
    · rw [wait_for_new_config, if_pos hc]
      cases script with
      | nil => simp
      | cons r rest => cases r <;> simp
    · rw [wait_for_new_config, if_neg hc]
      exact watch_loop_requests_ne_nil n data_id script
  · cases hn : n.name_space <;> simp [fetch_query, hn]
  · intro md5v
    refine ⟨[2] ++ n.group ++ [2] ++ md5v ++
      (match n.name_space with
       | some ns => [2] ++ ns
       | none => []) ++ [1], ?_⟩
    simp [listening_configs, List.append_assoc]
  · intro md5v hn h2g h2m
    simp [listening_configs, hn, List.count_append,
      List.count_eq_zero.mpr h2g, List.count_eq_zero.mpr h2m]
    omega

/-- Witness for C10: the data id `[2]` — a bare STX byte — is accepted
verbatim and inflates the separator count to three. -/
theorem C10_no_data_id_validation_witness :
    ((wait_for_new_config sampleUnseen [2] []).requests ≠ []
      ∧ ("dataId", [2]) ∈ fetch_query sampleUnseen [2]
      ∧ (∃ r', listening_configs sampleUnseen [2] [97] = [2] ++ r')
      ∧ (listening_configs sampleUnseen [2] [97]).count 2
          = 2 + ([2] : List Nat).count 2)
    ∧ (listening_configs sampleUnseen [2] [97]).count 2 = 3 :=
  have h := C10_no_data_id_validation sampleUnseen [2]
  ⟨⟨h.1 [], h.2.1, h.2.2.1 [97],
    h.2.2.2 [97] rfl (by decide) (by decide)⟩, by decide⟩
